import Mathlib

/-!
Shallow embedding of the scout_apm_node instrumentation core:
the layered configuration resolver (`src/lib/types/config.ts`) and the
tracing engine / agent lifecycle (`Scout` class and module-level send
helpers).  Pure data and control flow are translated into executable Lean
definitions; external effects (network, processes, timers, promises) are
represented by explicit effect records (messages sent, events emitted,
promise outcome).
-/

namespace ScoutAPM

/-- Modelled from the spec: log levels of `enum.ts` (not under `src/`):
`{Debug, Info, Warn, Error}`. -/
inductive LogLevel where
  | Debug
  | Info
  | Warn
  | Error
deriving DecidableEq, Repr

/-- Modelled from the spec: URI reporting levels of `enum.ts` (not under
`src/`): `uriReporting ∈ {None, Path, FilteredParams}`. -/
inductive URIReportingLevel where
  | NoneLevel
  | Path
  | FilteredParams
deriving DecidableEq, Repr

/-- A JavaScript value as it appears in the configuration sources.
`Option ConfigValue` plays the role of possibly-`undefined`; the `null`
constructor is JS `null` (a *defined* value, distinct from `undefined`);
`nan` is the JS `NaN` number that `parseInt` can produce. -/
inductive ConfigValue where
  | str (s : String)
  | bool (b : Bool)
  | int (n : Int)
  | nan
  | null
  | strList (l : List String)
  | logLevel (l : LogLevel)
  | uriLevel (u : URIReportingLevel)
deriving DecidableEq, Repr

/-- Modelled from the spec: `parseLogLevel` of `enum.ts` (not under `src/`)
maps the level names to the enum; unknown strings fall back to `Info`. -/
def parseLogLevel (s : String) : LogLevel :=
  match s.toLower with
  | "debug" => .Debug
  | "info" => .Info
  | "warn" => .Warn
  | "error" => .Error
  | _ => .Info

/-- Lowercase name of a log level (spec section 6: levels are lowercase). -/
def LogLevel.jsName : LogLevel → String
  | .Debug => "debug"
  | .Info => "info"
  | .Warn => "warn"
  | .Error => "error"

/-- String form of a URI reporting level, used only for JS string
interpolation of config values. -/
def URIReportingLevel.jsName : URIReportingLevel → String
  | .NoneLevel => "none"
  | .Path => "path"
  | .FilteredParams => "filtered_params"

/-- JS `ToString` on a defined configuration value (used by template
literals in the derived source). -/
def ConfigValue.jsToString : ConfigValue → String
  | .str s => s
  | .bool true => "true"
  | .bool false => "false"
  | .int n => toString n
  | .nan => "NaN"
  | .null => "null"
  | .strList l => ",".intercalate l
  | .logLevel l => l.jsName
  | .uriLevel u => u.jsName

/-- JS `ToString` including `undefined` (template literals stringify an
undefined interpolant as `"undefined"`). -/
def jsToStringOpt : Option ConfigValue → String
  | none => "undefined"
  | some v => v.jsToString

/-- Errors of `errors.ts` (not under `src/`); constructors follow the
spec's error taxonomy (section 7), carrying the message strings that the
`src/` throw sites supply. -/
inductive ScoutError where
  | notSupported (msg : String)
  | noAgentPresent
  | disconnected (msg : String)
  | monitoringDisabled
  | connectionFailed
  | invalidConfiguration (msg : String)
  | unknownSocketType
  | instanceNotReady
deriving DecidableEq, Repr

/-! ## Default source (`DEFAULT_SCOUT_CONFIGURATION`, config.ts lines 92-118) -/

/-- Embeds `DEFAULT_SCOUT_CONFIGURATION` (config.ts lines 92-118) as a
partial map from property name to value.  `herokuSlugCommit` is the
ambient `process.env.HEROKU_SLUG_COMMIT` captured at module load
(`revisionSHA: process.env.HEROKU_SLUG_COMMIT || ""`); `||` maps both an
absent and an empty variable to `""`.  Note the permissions default is
the *decimal* literal `700` exactly as written in the source. -/
def DEFAULT_SCOUT_CONFIGURATION (herokuSlugCommit : Option String) : String → Option ConfigValue
  | "key" => some (.str "")
  | "name" => some (.str "")
  | "appServer" => some (.str "")
  | "applicationRoot" => some (.str "")
  | "coreAgentDir" => some (.str "")
  | "coreAgentDownload" => some (.bool true)
  | "coreAgentLaunch" => some (.bool true)
  | "coreAgentLogLevel" => some (.logLevel .Info)
  | "coreAgentPermissions" => some (.int 700)
  | "coreAgentVersion" => some (.str "v1.2.7")
  | "disabledInstruments" => some (.strList [])
  | "downloadUrl" =>
      some (.str "https://s3-us-west-1.amazonaws.com/scout-public-downloads/apm_core_agent/release")
  | "framework" => some (.str "")
  | "frameworkVersion" => some (.str "")
  | "hostname" => some .null
  | "monitor" => some (.bool false)
  | "revisionSHA" => some (.str (herokuSlugCommit.getD ""))
  | "scmSubdirectory" => some (.str "")
  | "uriReporting" => some (.uriLevel .FilteredParams)
  | _ => none

/-- Embeds `DefaultConfigSource.setConfigValue` (config.ts lines 150-153):
always throws `NotSupported`. -/
def defaultSetConfigValue : Except ScoutError Unit :=
  .error (.notSupported "new configuration values cannot be set on the default source")

/-! ## Env source (`EnvConfigSource`, config.ts lines 156-195) -/

/-- Modelled from the spec: `convertCamelCaseToEnvVar` of `util.ts` (not
under `src/`): camelCase property names become UPPER_SNAKE prefixed with
`SCOUT_`. -/
def toUpperSnake (s : String) : String :=
  String.mk ((s.data.map (fun c => if c.isUpper then ['_', c] else [c.toUpper])).flatten)

/-- Modelled from the spec: env var name for a property
(`convertCamelCaseToEnvVar`, util.ts, not under `src/`). -/
def convertCamelCaseToEnvVar (prop : String) : String :=
  "SCOUT_" ++ toUpperSnake prop

/-- Accumulate the numeric value of a leading run of decimal digits; the
accumulator is `none` until the first digit is seen (JS `parseInt`
returns `NaN` when no digit is found). -/
def digitsPrefixVal : List Char → Option Nat → Option Nat
  | c :: rest, acc =>
      if c.isDigit then digitsPrefixVal rest (some ((acc.getD 0) * 10 + (c.toNat - 48)))
      else acc
  | [], acc => acc

/-- Embeds JS `parseInt(v, 10)` (used by the `SCOUT_CORE_AGENT_PERMISSIONS`
transform, config.ts line 161): optional sign, leading decimal digits,
trailing characters ignored, `NaN` when no digit is present. -/
def jsParseInt (v : String) : ConfigValue :=
  let s := v.trimLeft
  match s.data with
  | '-' :: cs =>
      match digitsPrefixVal cs none with
      | none => .nan
      | some n => .int (-(n : Int))
  | '+' :: cs =>
      match digitsPrefixVal cs none with
      | none => .nan
      | some n => .int n
  | cs =>
      match digitsPrefixVal cs none with
      | none => .nan
      | some n => .int n

/-- Embeds the `ENV_TRANSFORMS` table (config.ts lines 156-165) applied to
a defined env value; a variable not in the table keeps its raw string. -/
def applyEnvTransform (envVar v : String) : ConfigValue :=
  if envVar = "SCOUT_CORE_AGENT_LOG_LEVEL" then .logLevel (parseLogLevel v)
  else if envVar = "SCOUT_LOG_LEVEL" then .logLevel (parseLogLevel v)
  else if envVar = "SCOUT_CORE_AGENT_DOWNLOAD" then .bool (v.toLower == "true")
  else if envVar = "SCOUT_CORE_AGENT_LAUNCH" then .bool (v.toLower == "true")
  else if envVar = "SCOUT_CORE_AGENT_PERMISSIONS" then jsParseInt v
  else if envVar = "SCOUT_DISABLED_INSTRUMENTS" then .strList (v.splitOn ",")
  else if envVar = "SCOUT_IGNORE" then .strList (v.splitOn ",")
  else if envVar = "SCOUT_MONITOR" then .bool (v.toLower == "true")
  else .str v

/-- Embeds `EnvConfigSource.getConfigValue` (config.ts lines 181-190); the
environment is the source's captured `env` map. -/
def envGetConfigValue (env : String → Option String) (prop : String) : Option ConfigValue :=
  match env (convertCamelCaseToEnvVar prop) with
  | none => none
  | some v => some (applyEnvTransform (convertCamelCaseToEnvVar prop) v)

/-- Embeds `EnvConfigSource.setConfigValue` (config.ts lines 192-194):
always throws `NotSupported`. -/
def envSetConfigValue : Except ScoutError Unit :=
  .error (.notSupported "new configuration values cannot be set on the env source")

/-! ## Platform detection (config.ts lines 243-286) -/

/-- Ambient machine facts consulted by the platform detector: the values
of `os.arch()`, `os.platform()` and `detect-libc`'s `isNonGlibcLinux`. -/
structure HostInfo where
  systemArch : String
  systemPlatform : String
  isNonGlibcLinux : Bool
deriving DecidableEq, Repr

/-- Embeds `detectArch` (config.ts lines 244-251); the architecture enum's
string values (`x86_64`, `i686`, `unknown`) are modelled from the spec
(section 4.B), `enum.ts` not being under `src/`. -/
def detectArch (h : HostInfo) : String :=
  match h.systemArch with
  | "x64" => "x86_64"
  | "x32" => "i686"
  | _ => "unknown"

/-- Embeds `detectPlatform` (config.ts lines 254-261); platform enum string
values modelled from the spec (section 4.B). -/
def detectPlatform (h : HostInfo) : String :=
  match h.systemPlatform with
  | "linux" => if h.isNonGlibcLinux then "linux-musl" else "linux-gnu"
  | "darwin" => "darwin"
  | _ => "unknown"

/-- Embeds `generateTriple` (config.ts lines 273-275). -/
def generateTriple (h : HostInfo) : String :=
  detectArch h ++ "-" ++ detectPlatform h

/-- Modelled from the spec (section 4.B): the string values of the
`Architecture` enum of `enum.ts` (not under `src/`). -/
def architectureValues : List String := ["x86_64", "i686", "unknown"]

/-- Modelled from the spec (section 4.B): the string values of the
`Platform` enum of `enum.ts` (not under `src/`). -/
def platformValues : List String := ["linux-gnu", "linux-musl", "darwin", "unknown"]

/-- Helper for JS `triple.split("-")`: split a character list on `'-'`. -/
def splitDashAux : List Char → List Char → List String
  | [], acc => [String.mk acc.reverse]
  | c :: rest, acc =>
      if c = '-' then String.mk acc.reverse :: splitDashAux rest []
      else splitDashAux rest (c :: acc)

/-- JS `s.split("-")` (always at least one piece; `""` splits to `[""]`). -/
def splitOnDash (s : String) : List String := splitDashAux s.data []

/-- Embeds `isValidTriple` (config.ts lines 278-286): falsy triples are
invalid; otherwise the first dash-separated piece must be a known
architecture and the dash-rejoined remainder a known platform. -/
def isValidTriple (triple : String) : Bool :=
  if triple = "" then false
  else
    match splitOnDash triple with
    | [] => false
    | arch :: platformPieces =>
        architectureValues.contains arch
          && platformValues.contains (String.intercalate "-" platformPieces)

/-- `isValidTriple` applied to a possibly-undefined config value, as at the
call site in the derived source: `undefined`, `null` and the empty string
are falsy (`if (!triple) return false`); the value is otherwise a string. -/
def isValidTripleOpt : Option ConfigValue → Bool
  | some (.str s) => isValidTriple s
  | _ => false

/-! ## Derived source (`DerivedConfigSource`, config.ts lines 202-241) -/

/-- Modelled from the spec: `Constants.DEFAULT_CORE_AGENT_NAME` of
`constants.ts` (not under `src/`) is `"scout_apm_core"` (spec sections
4.A and 6). -/
def DEFAULT_CORE_AGENT_NAME : String := "scout_apm_core"

/-- Modelled from the spec: `Constants.DEFAULT_SOCKET_FILE_NAME` of
`constants.ts` (not under `src/`) is `"core-agent.sock"` (spec sections
4.A and 6). -/
def DEFAULT_SOCKET_FILE_NAME : String := "core-agent.sock"

/-- Embeds the `"coreAgentFullName"` case of
`DerivedConfigSource.getConfigValue` (config.ts lines 221-229): the value
is the template `` `${DEFAULT_CORE_AGENT_NAME}-${coreAgentVersion}-${coreAgentTriple}` ``
built from the proxy lookups of `coreAgentTriple` and `coreAgentVersion`
(no transformation of the version string), and a warning is logged
exactly when the triple is invalid and a log function is present.  The
second component records whether the warning was logged. -/
def deriveCoreAgentFullName (logFnPresent : Bool)
    (coreAgentTriple coreAgentVersion : Option ConfigValue) : ConfigValue × Bool :=
  (.str (DEFAULT_CORE_AGENT_NAME ++ "-" ++ jsToStringOpt coreAgentVersion
      ++ "-" ++ jsToStringOpt coreAgentTriple),
   !(isValidTripleOpt coreAgentTriple) && logFnPresent)

/-- Embeds the `"socketPath"` case of `DerivedConfigSource.getConfigValue`
(config.ts lines 216-220):
`` `${coreAgentDir}/${coreAgentFullName}/${DEFAULT_SOCKET_FILE_NAME}` ``. -/
def deriveSocketPath (coreAgentDir coreAgentFullName : Option ConfigValue) : ConfigValue :=
  .str (jsToStringOpt coreAgentDir ++ "/" ++ jsToStringOpt coreAgentFullName
      ++ "/" ++ DEFAULT_SOCKET_FILE_NAME)

/-- State of a `ScoutConfigurationProxy` (config.ts lines 320-355): the
captured environment, the mutable node source contents, the ambient
`HEROKU_SLUG_COMMIT` read by the default table, whether a log function
was supplied to the derived source, and the machine facts used by
`generateTriple`. -/
structure ScoutConfigurationProxy where
  env : String → Option String
  nodeConfig : String → Option ConfigValue
  herokuSlugCommit : Option String
  logFnPresent : Bool
  host : HostInfo

/-- Embeds `DerivedConfigSource.getConfigValue` (config.ts lines 211-236).
`getRec` is the recursive re-entry into the proxy's `get` used for the
dependent lookups (the source receives the proxy itself as `p`). -/
def derivedGetConfigValue (st : ScoutConfigurationProxy)
    (getRec : String → Option ConfigValue) (prop : String) : Option ConfigValue :=
  if prop = "socketPath" then
    some (deriveSocketPath (getRec "coreAgentDir") (getRec "coreAgentFullName"))
  else if prop = "coreAgentFullName" then
    some (deriveCoreAgentFullName st.logFnPresent
      (getRec "coreAgentTriple") (getRec "coreAgentVersion")).1
  else if prop = "coreAgentTriple" then
    some (.str (generateTriple st.host))
  else
    none

/-- Embeds `DerivedConfigSource.setConfigValue` (config.ts lines 238-240):
always throws `NotSupported`. -/
def derivedSetConfigValue : Except ScoutError Unit :=
  .error (.notSupported "new configuration values cannot be set on the derived source")

/-! ## The proxy (`ScoutConfigurationProxy.get` / `.set`, config.ts lines 338-355) -/

/-- The `for (const s of this.sources)` loop body of
`ScoutConfigurationProxy.get`: first defined (non-`undefined`) value. -/
def firstDefined : List (Option ConfigValue) → Option ConfigValue
  | [] => none
  | some v :: _ => some v
  | none :: rest => firstDefined rest

/-- Embeds `ScoutConfigurationProxy.get` (config.ts lines 338-348) with
explicit recursion fuel.  The JS recursion through the derived source is
unbounded syntactically but reaches depth at most 3
(`socketPath → coreAgentFullName → coreAgentTriple`), so any fuel of at
least 4 computes exactly the JS value; `ScoutConfigurationProxy.get`
below fixes the fuel at 4.  The sources are consulted in the constructor
order `[Env, Node, Derived, Default]` (config.ts lines 330-335). -/
def ScoutConfigurationProxy.getFuel : Nat → ScoutConfigurationProxy → String → Option ConfigValue
  | 0, _, _ => none
  | Nat.succ n, st, prop =>
      firstDefined
        [ envGetConfigValue st.env prop,
          st.nodeConfig prop,
          derivedGetConfigValue st (ScoutConfigurationProxy.getFuel n st) prop,
          DEFAULT_SCOUT_CONFIGURATION st.herokuSlugCommit prop ]

/-- Embeds `ScoutConfigurationProxy.get` (config.ts lines 338-348). -/
def ScoutConfigurationProxy.get (st : ScoutConfigurationProxy) (prop : String) :
    Option ConfigValue :=
  ScoutConfigurationProxy.getFuel 4 st prop

/-- Embeds `ScoutConfigurationProxy.set` (config.ts lines 350-354): the
write goes to the `NodeConfigSource` only
(`NodeConfigSource.setConfigValue`, config.ts lines 306-308:
`this.config[prop] = value`). -/
def ScoutConfigurationProxy.set (st : ScoutConfigurationProxy) (prop : String)
    (v : ConfigValue) : ScoutConfigurationProxy :=
  { st with nodeConfig := fun q => if q = prop then some v else st.nodeConfig q }

/-! ## Socket selection (`Scout.socketPath` / `Scout.getSocketType`,
part_000 lines 176-196 and 253-265) -/

/-- Modelled from the spec: `CoreAgentVersion` (not under `src/`) wraps a
semantic version; only the release triple is needed for the comparisons
the engine performs. -/
structure SemVer where
  major : Nat
  minor : Nat
  patch : Nat
deriving DecidableEq, Repr

/-- `semver.lt` on release versions: lexicographic on
(major, minor, patch). -/
def semverLt (a b : SemVer) : Bool :=
  a.major < b.major
    || (a.major == b.major
        && (a.minor < b.minor || (a.minor == b.minor && a.patch < b.patch)))

/-- Modelled from the spec: `Constants.CORE_AGENT_TCP_SOCKET_MIN_VERSION`
of `constants.ts` (not under `src/`) is `1.3.0` (spec section 4.D). -/
def CORE_AGENT_TCP_SOCKET_MIN_VERSION : SemVer := ⟨1, 3, 0⟩

/-- Modelled from the spec: `Constants.CORE_AGENT_TCP_DEFAULT_HOST` (not
under `src/`) is `127.0.0.1` (spec sections 4.D and 6). -/
def CORE_AGENT_TCP_DEFAULT_HOST : String := "127.0.0.1"

/-- Modelled from the spec: `Constants.CORE_AGENT_TCP_DEFAULT_PORT` (not
under `src/`) is `6590` (spec sections 4.D and 6), kept as the string it
interpolates to. -/
def CORE_AGENT_TCP_DEFAULT_PORT : String := "6590"

/-- Node `path.dirname` restricted to the plain-path shapes the engine
builds: everything before the last `/`, or `"."` when there is none. -/
def pathDirname (p : String) : String :=
  let parts := p.splitOn "/"
  if parts.length ≤ 1 then "." else String.intercalate "/" parts.dropLast

/-- Node `path.join` on the already-normalized two-segment joins the
engine performs. -/
def pathJoin (a b : String) : String :=
  if a = "" then b else if b = "" then a else a ++ "/" ++ b

/-- The slice of `Scout` state that decides socket selection: the
configured `socketPath` (JS truthiness: `undefined` and `""` both take
the fallback branch), the resolved core agent version
(`this.coreAgentVersion.raw`), and the computed `binPath`. -/
structure ScoutSocketState where
  socketPathCfg : Option String
  coreAgentVersion : SemVer
  binPath : String
deriving DecidableEq, Repr

/-- JS truthiness of an optional string: `undefined` and `""` are falsy. -/
def jsTruthyStr : Option String → Bool
  | none => false
  | some s => s != ""

/-- Embeds `Scout.getDefaultSocketFilePath` (part_000 lines 191-196):
`path.join(path.dirname(this.binPath), DEFAULT_SOCKET_FILE_NAME)`. -/
def Scout.getDefaultSocketFilePath (binPath : String) : String :=
  pathJoin (pathDirname binPath) DEFAULT_SOCKET_FILE_NAME

/-- Embeds the `Scout.socketPath` getter (part_000 lines 176-189):
a truthy configured `socketPath` is used literally; otherwise versions
below `CORE_AGENT_TCP_SOCKET_MIN_VERSION` use the default Unix socket
file path and newer versions use the default TCP endpoint. -/
def Scout.socketPath (s : ScoutSocketState) : String :=
  if jsTruthyStr s.socketPathCfg then s.socketPathCfg.getD ""
  else if semverLt s.coreAgentVersion CORE_AGENT_TCP_SOCKET_MIN_VERSION then
    Scout.getDefaultSocketFilePath s.binPath
  else
    "tcp://" ++ CORE_AGENT_TCP_DEFAULT_HOST ++ ":" ++ CORE_AGENT_TCP_DEFAULT_PORT

/-- The two socket kinds (`AgentSocketType` of `enum.ts`). -/
inductive AgentSocketType where
  | TCP
  | Unix
deriving DecidableEq, Repr

/-- Character-level string prefix test; embeds both the JS test
`path.indexOf(pre) === 0` and JS `startsWith`, which hold exactly when
`pre` is an ordinary string prefix of `path`. -/
def strIsPrefixOf (pre p : String) : Bool :=
  List.isPrefixOf pre.data p.data

/-- Embeds `Scout.getSocketType` (part_000 lines 253-256): TCP iff the
selected socket path starts with `tcp://`. -/
def Scout.getSocketType (s : ScoutSocketState) : AgentSocketType :=
  if strIsPrefixOf "tcp://" (Scout.socketPath s) then .TCP else .Unix

/-! ## Path ignoring (`Scout.ignoresPath`, part_000 lines 402-418) -/

/-- Embeds `Scout.ignoresPath` (part_000 lines 402-418).  The result pair
is (returned boolean, whether `IgnoredPathDetected` was emitted).  An
absent or empty `ignore` list short-circuits to `false`; otherwise
`find` locates the first matching entry; the emit is guarded by the JS
truthiness of that entry (`if (matchingPrefix)`), while the returned
boolean only checks it is not `undefined`. -/
def Scout.ignoresPath (ignore : Option (List String)) (p : String) : Bool × Bool :=
  match ignore with
  | none => (false, false)
  | some l =>
      if l.length = 0 then (false, false)
      else
        match l.find? (fun pre => strIsPrefixOf pre p) with
        | none => (false, false)
        | some pre => (true, pre != "")

/-! ## Scout lifecycle state (`Scout`, part_000 lines 100-394) -/

/-- The three states of the JS field `private agent: ExternalProcessAgent
| null` visible to `hasAgent`/`isShutdown`: never assigned (`undefined`,
as after construction), explicitly cleared (`null`, as after shutdown),
or holding an agent object. -/
inductive AgentSlot where
  | undef
  | null
  | present
deriving DecidableEq, Repr

/-- The slice of `Scout` state the lifecycle and send paths read and
write: the agent slot, the resolved `monitor` and `allowShutdown`
configuration values, whether a live statistics interval timer exists,
and whether the uncaught-exception listener is installed. -/
structure ScoutState where
  agent : AgentSlot
  monitor : Bool
  allowShutdown : Bool
  statsTimerActive : Bool
  uncaughtExceptionListener : Bool
deriving DecidableEq, Repr

/-- Embeds the `Scout` constructor (part_000 lines 126-163) restricted to
the modelled state: the `agent` field is declared but never assigned, so
it is `undefined`; no timer or listener is installed yet. -/
def Scout.construct (monitor allowShutdown : Bool) : ScoutState :=
  { agent := .undef
    monitor := monitor
    allowShutdown := allowShutdown
    statsTimerActive := false
    uncaughtExceptionListener := false }

/-- Embeds `Scout.hasAgent` (part_000 lines 388-390):
`typeof this.agent !== "undefined" && this.agent !== null`. -/
def Scout.hasAgent (s : ScoutState) : Bool :=
  s.agent == .present

/-- Embeds `Scout.isShutdown` (part_000 lines 392-394):
`this.agent === null`. -/
def Scout.isShutdown (s : ScoutState) : Bool :=
  s.agent == .null

/-- Embeds `Scout.setupAgent` (part_000 lines 995-1006) restricted to the
modelled state: `this.agent = agent` installs the agent object. -/
def Scout.setupAgent (s : ScoutState) : ScoutState :=
  { s with agent := .present }

/-- Events a `Scout` instance emits that the claims mention. -/
inductive ScoutEvt where
  | IgnoredRequestProcessingSkipped (requestId : String)
  | IgnoredPathDetected (path : String)
  | RequestSent (requestId : String)
  | Shutdown
deriving DecidableEq, Repr

/-- Outcome of a JS promise: fulfilled or rejected with an error. -/
inductive PromiseOutcome where
  | resolved
  | rejected (e : ScoutError)
deriving DecidableEq, Repr

/-- Embeds `Scout.shutdown` (part_000 lines 357-386): stop the statistics
timer if one is live; with no agent object present (`if (!this.agent)` —
true for both `undefined` and `null`) reject with `NoAgentPresent`
without touching the listener; otherwise remove the uncaught-exception
listener, disconnect (and stop the process iff `allowShutdown`), clear
the agent to `null` and emit `Shutdown`.  The result is the post state,
the promise outcome, and the events emitted. -/
def Scout.shutdown (s : ScoutState) : ScoutState × PromiseOutcome × List ScoutEvt :=
  let s0 := { s with statsTimerActive := false }
  if s0.agent != .present then
    (s0, .rejected .noAgentPresent, [])
  else
    ({ s0 with uncaughtExceptionListener := false, agent := .null },
     .resolved, [.Shutdown])

/-! ## Send helpers (part_000 lines 1029-1246) -/

/-- The agent protocol messages the send helpers construct
(`Requests.V1*`); timestamps and option bags are not modelled (they do
not affect whether and what is sent). -/
inductive AgentMsg where
  | V1StartRequest (requestId : String)
  | V1FinishRequest (requestId : String)
  | V1TagRequest (tag : String) (value : String) (requestId : String)
  | V1StartSpan (operation : String) (requestId : String) (spanId : String)
      (parentId : Option String)
  | V1TagSpan (tag : String) (value : String) (spanId : String) (requestId : String)
  | V1StopSpan (spanId : String) (requestId : String)
  | V1Register (app : String) (key : String)
  | V1ApplicationEvent (source : String) (eventType : String)
deriving DecidableEq, Repr

/-- Observable effect of one send helper call: the messages handed to the
agent, the events emitted on the scout instance, and the outcome of the
returned promise. -/
structure SendEffect where
  sent : List AgentMsg
  events : List ScoutEvt
  outcome : PromiseOutcome
deriving DecidableEq, Repr

/-- Embeds `sendThroughAgent` (part_000 lines 1217-1246): reject with
`Disconnected` when `hasAgent()` is false; reject with `NoAgentPresent`
when `getAgent()` is null (unreachable after the first check, kept for
faithfulness); reject with `MonitoringDisabled` when `monitor` is not
set; otherwise hand the message to the agent. -/
def sendThroughAgent (s : ScoutState) (msg : AgentMsg) : SendEffect :=
  if !(Scout.hasAgent s) then
    { sent := [], events := [],
      outcome := .rejected (.disconnected "No agent is present, please run .setup()") }
  else if s.agent != .present then
    { sent := [], events := [], outcome := .rejected .noAgentPresent }
  else if !s.monitor then
    { sent := [], events := [], outcome := .rejected .monitoringDisabled }
  else
    { sent := [msg], events := [], outcome := .resolved }

/-- Modelled from the spec: a `ScoutRequest` (`./request`, not under
`src/`) as the send helpers see it: an identity and the ignored flag
returned by `isIgnored()`. -/
structure ScoutRequest where
  id : String
  ignored : Bool
deriving DecidableEq, Repr

/-- Modelled from the spec: `ScoutRequest.isIgnored` returns the ignored
flag. -/
def ScoutRequest.isIgnored (r : ScoutRequest) : Bool := r.ignored

/-- Modelled from the spec: a `ScoutSpan` (`./span`, not under `src/`) as
the send helpers see it: identity, owning `requestId`, optional
`parentId`, operation name, and the ignored flag (inherited from the
request). -/
structure ScoutSpan where
  id : String
  requestId : String
  parentId : Option String
  operation : String
  ignored : Bool
deriving DecidableEq, Repr

/-- Modelled from the spec: `ScoutSpan.isIgnored` returns the ignored
flag. -/
def ScoutSpan.isIgnored (sp : ScoutSpan) : Bool := sp.ignored

/-- Embeds `sendStartRequest` (part_000 lines 1029-1047): an ignored
request emits one `IgnoredRequestProcessingSkipped` and resolves without
sending; otherwise `V1StartRequest` goes through the agent and the
`.then`/`.catch` pair makes the returned promise resolve either way. -/
def sendStartRequest (s : ScoutState) (req : ScoutRequest) : SendEffect :=
  if req.isIgnored then
    { sent := [], events := [.IgnoredRequestProcessingSkipped req.id], outcome := .resolved }
  else
    let e := sendThroughAgent s (.V1StartRequest req.id)
    { e with outcome := .resolved }

/-- Embeds `sendStopRequest` (part_000 lines 1056-1075): the ignored
branch as in `sendStartRequest`; on a successful send the `RequestSent`
event is also emitted; the catch branch logs and resolves. -/
def sendStopRequest (s : ScoutState) (req : ScoutRequest) : SendEffect :=
  if req.isIgnored then
    { sent := [], events := [.IgnoredRequestProcessingSkipped req.id], outcome := .resolved }
  else
    let e := sendThroughAgent s (.V1FinishRequest req.id)
    match e.outcome with
    | .resolved => { sent := e.sent, events := e.events ++ [.RequestSent req.id],
                     outcome := .resolved }
    | .rejected _ => { e with outcome := .resolved }

/-- Embeds `sendTagRequest` (part_000 lines 1086-1105). -/
def sendTagRequest (s : ScoutState) (req : ScoutRequest) (name value : String) : SendEffect :=
  if req.isIgnored then
    { sent := [], events := [.IgnoredRequestProcessingSkipped req.id], outcome := .resolved }
  else
    let e := sendThroughAgent s (.V1TagRequest name value req.id)
    { e with outcome := .resolved }

/-- Embeds `sendStartSpan` (part_000 lines 1114-1142): an ignored span
emits one `IgnoredRequestProcessingSkipped` carrying `span.requestId`. -/
def sendStartSpan (s : ScoutState) (sp : ScoutSpan) : SendEffect :=
  if sp.isIgnored then
    { sent := [], events := [.IgnoredRequestProcessingSkipped sp.requestId],
      outcome := .resolved }
  else
    let e := sendThroughAgent s (.V1StartSpan sp.operation sp.requestId sp.id sp.parentId)
    { e with outcome := .resolved }

/-- Embeds `sendTagSpan` (part_000 lines 1153-1181). -/
def sendTagSpan (s : ScoutState) (sp : ScoutSpan) (name value : String) : SendEffect :=
  if sp.isIgnored then
    { sent := [], events := [.IgnoredRequestProcessingSkipped sp.requestId],
      outcome := .resolved }
  else
    let e := sendThroughAgent s (.V1TagSpan name value sp.id sp.requestId)
    { e with outcome := .resolved }

/-- Embeds `sendStopSpan` (part_000 lines 1190-1208). -/
def sendStopSpan (s : ScoutState) (sp : ScoutSpan) : SendEffect :=
  if sp.isIgnored then
    { sent := [], events := [.IgnoredRequestProcessingSkipped sp.requestId],
      outcome := .resolved }
  else
    let e := sendThroughAgent s (.V1StopSpan sp.id sp.requestId)
    { e with outcome := .resolved }

/-! ## Transaction after failed setup (`Scout.transaction`,
part_000 lines 444-461) -/

/-- Embeds `Scout.withAsyncRequestContext` (part_000 lines 864-939)
abstracted over the outcome of `startRequest`: the success path sets
`ranCb` and calls `resolve(result)` after invoking the user callback;
the catch path invokes the callback when it has not yet run and also
calls `resolve(result)` — so the callback runs and the returned promise
resolves in both cases.  The result pair is (user callback ran, promise
outcome). -/
def withAsyncRequestContext (startRequestOutcome : PromiseOutcome) : Bool × PromiseOutcome :=
  match startRequestOutcome with
  | .resolved => (true, .resolved)
  | .rejected _ => (true, .resolved)

/-- Embeds `Scout.transaction` (part_000 lines 444-461) abstracted over
the outcomes of `setup()` and of the inner `startRequest`: when `setup`
resolves, `ranContext` is set and the async request context runs; when
`setup` rejects, the `.catch` branch logs the failure and, since
`ranContext` is still false, runs the async request context anyway. -/
def Scout.transaction (setupOutcome startRequestOutcome : PromiseOutcome) :
    Bool × PromiseOutcome :=
  match setupOutcome with
  | .resolved => withAsyncRequestContext startRequestOutcome
  | .rejected _ => withAsyncRequestContext startRequestOutcome

/-! ## Spec-side comparison definitions -/

/-- The spec's words for `coreAgentFullName`: "strip leading `v` from
version".  Used only to compare the spec's formula with the source's. -/
def specStripLeadingV (s : String) : String :=
  match s.data with
  | 'v' :: rest => String.mk rest
  | _ => s

/-! ## Claim theorems -/

/-- C1: for every property name `p`, the configuration resolver's `get(p)`
iterates the sources in the fixed order `[Env, Node, Derived, Default]`
and returns the value from the earliest source whose lookup is defined;
if every source is undefined for `p`, `get(p)` returns `undefined`. -/
theorem config_get_iterates_sources (st : ScoutConfigurationProxy) (prop : String) :
    (∀ v : ConfigValue,
      st.get prop = some v ↔
        (envGetConfigValue st.env prop = some v
         ∨ (envGetConfigValue st.env prop = none ∧ st.nodeConfig prop = some v)
         ∨ (envGetConfigValue st.env prop = none ∧ st.nodeConfig prop = none
            ∧ derivedGetConfigValue st (ScoutConfigurationProxy.getFuel 3 st) prop = some v)
         ∨ (envGetConfigValue st.env prop = none ∧ st.nodeConfig prop = none
            ∧ derivedGetConfigValue st (ScoutConfigurationProxy.getFuel 3 st) prop = none
            ∧ DEFAULT_SCOUT_CONFIGURATION st.herokuSlugCommit prop = some v)))
    ∧ (st.get prop = none ↔
        (envGetConfigValue st.env prop = none ∧ st.nodeConfig prop = none
         ∧ derivedGetConfigValue st (ScoutConfigurationProxy.getFuel 3 st) prop = none
         ∧ DEFAULT_SCOUT_CONFIGURATION st.herokuSlugCommit prop = none)) := by
  have hget : st.get prop = firstDefined
      [ envGetConfigValue st.env prop,
        st.nodeConfig prop,
        derivedGetConfigValue st (ScoutConfigurationProxy.getFuel 3 st) prop,
        DEFAULT_SCOUT_CONFIGURATION st.herokuSlugCommit prop ] := rfl
  cases hE : envGetConfigValue st.env prop <;>
    cases hN : st.nodeConfig prop <;>
      cases hD : derivedGetConfigValue st (ScoutConfigurationProxy.getFuel 3 st) prop <;>
        cases hF : DEFAULT_SCOUT_CONFIGURATION st.herokuSlugCommit prop <;>
          simp_all [firstDefined]

/-- C2: `set(p, v)` on the configuration resolver writes `v` only to the
Node source — the environment, the ambient Heroku commit, the log
function and the host facts are untouched, and the node contents change
exactly at `p` — while a write addressed directly to one of the
read-only sources (Default, Env, Derived) fails with `NotSupported`. -/
theorem config_set_writes_only_node (st : ScoutConfigurationProxy) (p : String)
    (v : ConfigValue) (q : String) :
    (ScoutConfigurationProxy.set st p v).env = st.env
    ∧ (ScoutConfigurationProxy.set st p v).herokuSlugCommit = st.herokuSlugCommit
    ∧ (ScoutConfigurationProxy.set st p v).logFnPresent = st.logFnPresent
    ∧ (ScoutConfigurationProxy.set st p v).host = st.host
    ∧ (ScoutConfigurationProxy.set st p v).nodeConfig q
        = (if q = p then some v else st.nodeConfig q)
    ∧ defaultSetConfigValue
        = Except.error (ScoutError.notSupported
            "new configuration values cannot be set on the default source")
    ∧ envSetConfigValue
        = Except.error (ScoutError.notSupported
            "new configuration values cannot be set on the env source")
    ∧ derivedSetConfigValue
        = Except.error (ScoutError.notSupported
            "new configuration values cannot be set on the derived source") :=
  ⟨rfl, rfl, rfl, rfl, rfl, rfl, rfl, rfl⟩

/-- C3 counterexample: with the default version `"v1.2.7"` and the triple
`"x86_64-linux-gnu"`, the derived `coreAgentFullName` keeps the leading
`v` of the version, so it differs from the spec's formula with the
leading `v` stripped. -/
theorem coreAgentFullName_keeps_leading_v :
    (deriveCoreAgentFullName true
        (some (.str "x86_64-linux-gnu")) (some (.str "v1.2.7"))).1
      = ConfigValue.str "scout_apm_core-v1.2.7-x86_64-linux-gnu"
    ∧ ConfigValue.str "scout_apm_core-v1.2.7-x86_64-linux-gnu"
      ≠ ConfigValue.str
          ("scout_apm_core-" ++ specStripLeadingV "v1.2.7" ++ "-x86_64-linux-gnu") := by
  constructor
  · rfl
  · decide

/-- C3 (amended): the derived `coreAgentFullName` equals
`"scout_apm_core-{coreAgentVersion}-{coreAgentTriple}"` with the version
string used verbatim (no leading `v` stripped); when the triple is
invalid a warning is logged (exactly when a log function is present) but
a string is still produced. -/
theorem coreAgentFullName_amended (version triple : String) (lf : Bool) :
    (deriveCoreAgentFullName lf (some (.str triple)) (some (.str version))).1
      = ConfigValue.str ("scout_apm_core" ++ "-" ++ version ++ "-" ++ triple)
    ∧ (∃ s, (deriveCoreAgentFullName lf (some (.str triple)) (some (.str version))).1
        = ConfigValue.str s)
    ∧ ((deriveCoreAgentFullName lf (some (.str triple)) (some (.str version))).2 = true
        ↔ (isValidTriple triple = false ∧ lf = true)) := by
  refine ⟨rfl, ⟨_, rfl⟩, ?_⟩
  simp [deriveCoreAgentFullName, isValidTripleOpt]

/-- C4 counterexample: the default for `coreAgentPermissions` is the
decimal integer literal `700`, not the octal value 0700 (= 448). -/
theorem default_permissions_not_octal :
    DEFAULT_SCOUT_CONFIGURATION none "coreAgentPermissions" = some (ConfigValue.int 700)
    ∧ DEFAULT_SCOUT_CONFIGURATION none "coreAgentPermissions"
        ≠ some (ConfigValue.int 448) := by
  constructor
  · rfl
  · decide

/-- C4 (amended): the Default source holds the listed initial values, with
`coreAgentPermissions` defaulting to the integer `700` (the decimal
literal written in the source, not octal 0700 = 448); `coreAgentDownload`
and `coreAgentLaunch` default to `true`, `coreAgentVersion` to
`"v1.2.7"`, `monitor` to `false`, `uriReporting` to `FilteredParams`,
and `revisionSHA` to the ambient `HEROKU_SLUG_COMMIT` or `""`. -/
theorem default_configuration_values (h : Option String) :
    DEFAULT_SCOUT_CONFIGURATION h "coreAgentDownload" = some (ConfigValue.bool true)
    ∧ DEFAULT_SCOUT_CONFIGURATION h "coreAgentLaunch" = some (ConfigValue.bool true)
    ∧ DEFAULT_SCOUT_CONFIGURATION h "coreAgentLogLevel" = some (ConfigValue.logLevel .Info)
    ∧ DEFAULT_SCOUT_CONFIGURATION h "coreAgentPermissions" = some (ConfigValue.int 700)
    ∧ DEFAULT_SCOUT_CONFIGURATION h "coreAgentVersion" = some (ConfigValue.str "v1.2.7")
    ∧ DEFAULT_SCOUT_CONFIGURATION h "downloadUrl"
        = some (ConfigValue.str
            "https://s3-us-west-1.amazonaws.com/scout-public-downloads/apm_core_agent/release")
    ∧ DEFAULT_SCOUT_CONFIGURATION h "monitor" = some (ConfigValue.bool false)
    ∧ DEFAULT_SCOUT_CONFIGURATION h "uriReporting"
        = some (ConfigValue.uriLevel .FilteredParams)
    ∧ DEFAULT_SCOUT_CONFIGURATION h "revisionSHA" = some (ConfigValue.str (h.getD "")) :=
  ⟨rfl, rfl, rfl, rfl, rfl, rfl, rfl, rfl, rfl⟩

/-- C5: socket selection — a truthy configured `socketPath` is used
literally (TCP exactly when it starts with `tcp://`, Unix otherwise);
with no configured path, a core agent version strictly below `1.3.0`
selects the default Unix socket file path, and a version at least
`1.3.0` selects `tcp://127.0.0.1:6590`. -/
theorem socket_selection (s : ScoutSocketState) :
    (∀ p : String, s.socketPathCfg = some p → p ≠ "" →
        Scout.socketPath s = p
        ∧ Scout.getSocketType s
            = (if strIsPrefixOf "tcp://" p then AgentSocketType.TCP else AgentSocketType.Unix))
    ∧ (jsTruthyStr s.socketPathCfg = false →
        semverLt s.coreAgentVersion CORE_AGENT_TCP_SOCKET_MIN_VERSION = true →
        Scout.socketPath s = Scout.getDefaultSocketFilePath s.binPath
        ∧ (strIsPrefixOf "tcp://" (Scout.getDefaultSocketFilePath s.binPath) = false →
            Scout.getSocketType s = AgentSocketType.Unix))
    ∧ (jsTruthyStr s.socketPathCfg = false →
        semverLt s.coreAgentVersion CORE_AGENT_TCP_SOCKET_MIN_VERSION = false →
        Scout.socketPath s = "tcp://127.0.0.1:6590"
        ∧ Scout.getSocketType s = AgentSocketType.TCP) := by
  refine ⟨?_, ?_, ?_⟩
  · intro p hp hne
    have hbne : (p != "") = true := bne_iff_ne.mpr hne
    have hsp : Scout.socketPath s = p := by
      simp [Scout.socketPath, hp, jsTruthyStr, hbne]
    refine ⟨hsp, ?_⟩
    simp [Scout.getSocketType, hsp]
  · intro h1 h2
    have hsp : Scout.socketPath s = Scout.getDefaultSocketFilePath s.binPath := by
      simp [Scout.socketPath, h1, h2]
    refine ⟨hsp, ?_⟩
    intro h3
    simp [Scout.getSocketType, hsp, h3]
  · intro h1 h2
    have hsp : Scout.socketPath s = "tcp://127.0.0.1:6590" := by
      simp [Scout.socketPath, h1, h2]
      rfl
    refine ⟨hsp, ?_⟩
    rw [Scout.getSocketType, hsp]
    decide

/-- C5 witness: the three branches of `socket_selection` at concrete
states — a configured literal Unix path, an unconfigured state on
version 1.2.7, and an unconfigured state on version 1.3.0. -/
theorem socket_selection_witness :
    Scout.socketPath ⟨some "/tmp/a.sock", ⟨1, 2, 7⟩, "/tmp/scout/core-agent"⟩ = "/tmp/a.sock"
    ∧ Scout.socketPath ⟨none, ⟨1, 2, 7⟩, "/tmp/scout/core-agent"⟩
        = Scout.getDefaultSocketFilePath "/tmp/scout/core-agent"
    ∧ Scout.socketPath ⟨none, ⟨1, 3, 0⟩, "/tmp/scout/core-agent"⟩ = "tcp://127.0.0.1:6590"
    ∧ Scout.getSocketType ⟨none, ⟨1, 3, 0⟩, "/tmp/scout/core-agent"⟩ = AgentSocketType.TCP :=
  ⟨((socket_selection ⟨some "/tmp/a.sock", ⟨1, 2, 7⟩, "/tmp/scout/core-agent"⟩).1
      "/tmp/a.sock" rfl (by decide)).1,
   ((socket_selection ⟨none, ⟨1, 2, 7⟩, "/tmp/scout/core-agent"⟩).2.1
      (by decide) (by decide)).1,
   ((socket_selection ⟨none, ⟨1, 3, 0⟩, "/tmp/scout/core-agent"⟩).2.2
      (by decide) (by decide)).1,
   ((socket_selection ⟨none, ⟨1, 3, 0⟩, "/tmp/scout/core-agent"⟩).2.2
      (by decide) (by decide)).2⟩

/-- C6 counterexample: with the configured ignore list `[""]`, the empty
entry is a prefix of `"/api"`, so `ignoresPath` returns `true` — yet the
`IgnoredPathDetected` event is not emitted, because the emit is guarded
by the JS truthiness of the matched entry and `""` is falsy.  This
refutes "it emits the IgnoredPathDetected event exactly when it returns
true". -/
theorem ignoresPath_empty_entry_no_event :
    (Scout.ignoresPath (some [""]) "/api").1 = true
    ∧ (Scout.ignoresPath (some [""]) "/api").2 = false := by
  decide

/-- C6 (amended): `ignoresPath(p)` returns `true` iff some entry of the
configured ignore list is a string prefix of `p` (an absent or empty
list yields `false`); the `IgnoredPathDetected` event is emitted iff the
*first* matching entry is non-empty — i.e. exactly when it returns
`true`, except when the earliest matching ignore entry is the empty
string. -/
theorem ignoresPath_amended (ignore : Option (List String)) (p : String) :
    ((Scout.ignoresPath ignore p).1 = true ↔
        ∃ l, ignore = some l ∧ ∃ pre ∈ l, strIsPrefixOf pre p = true)
    ∧ ((Scout.ignoresPath ignore p).2 = true ↔
        ∃ l pre, ignore = some l
          ∧ l.find? (fun q => strIsPrefixOf q p) = some pre ∧ pre ≠ "") := by
  cases ignore with
  | none => simp [Scout.ignoresPath]
  | some l =>
      by_cases hl : l.length = 0
      · have hnil : l = [] := List.length_eq_zero.mp hl
        subst hnil
        simp [Scout.ignoresPath]
      · cases hf : l.find? (fun q => strIsPrefixOf q p) with
        | none =>
            have hnone := List.find?_eq_none.mp hf
            constructor
            · constructor
              · intro hcontra
                exfalso
                simp [Scout.ignoresPath, hl, hf] at hcontra
              · rintro ⟨l', hl', pre, hmem, hpre⟩
                cases hl'
                exact absurd hpre (by simpa using hnone pre hmem)
            · constructor
              · intro hcontra
                exfalso
                simp [Scout.ignoresPath, hl, hf] at hcontra
              · rintro ⟨l', pre, hl', hfind, _⟩
                cases hl'
                rw [hf] at hfind
                exact Option.noConfusion hfind
        | some pre =>
            have hmem := List.mem_of_find?_eq_some hf
            have hpre : strIsPrefixOf pre p = true := by
              simpa using List.find?_some hf
            constructor
            · constructor
              · intro _
                exact ⟨l, rfl, pre, hmem, hpre⟩
              · intro _
                simp [Scout.ignoresPath, hl, hf]
            · constructor
              · intro hemit
                refine ⟨l, pre, rfl, hf, ?_⟩
                simp [Scout.ignoresPath, hl, hf] at hemit
                simpa using hemit
              · rintro ⟨l', pre', hl', hfind, hne⟩
                cases hl'
                rw [hf] at hfind
                cases hfind
                simp [Scout.ignoresPath, hl, hf]
                simpa using hne

/-- C7: every send helper, applied to an ignored request or span, sends
nothing through the agent, emits exactly one
`IgnoredRequestProcessingSkipped` event, and returns a resolved
promise. -/
theorem ignored_sends_skip_network (s : ScoutState) (req : ScoutRequest) (sp : ScoutSpan)
    (name value : String) (hreq : req.isIgnored = true) (hsp : sp.isIgnored = true) :
    sendStartRequest s req
      = { sent := [], events := [.IgnoredRequestProcessingSkipped req.id],
          outcome := .resolved }
    ∧ sendStopRequest s req
      = { sent := [], events := [.IgnoredRequestProcessingSkipped req.id],
          outcome := .resolved }
    ∧ sendTagRequest s req name value
      = { sent := [], events := [.IgnoredRequestProcessingSkipped req.id],
          outcome := .resolved }
    ∧ sendStartSpan s sp
      = { sent := [], events := [.IgnoredRequestProcessingSkipped sp.requestId],
          outcome := .resolved }
    ∧ sendTagSpan s sp name value
      = { sent := [], events := [.IgnoredRequestProcessingSkipped sp.requestId],
          outcome := .resolved }
    ∧ sendStopSpan s sp
      = { sent := [], events := [.IgnoredRequestProcessingSkipped sp.requestId],
          outcome := .resolved } := by
  simp [sendStartRequest, sendStopRequest, sendTagRequest, sendStartSpan,
    sendTagSpan, sendStopSpan, hreq, hsp]

/-- C7 witness: `ignored_sends_skip_network` instantiated on a concrete
ignored request and span. -/
theorem ignored_sends_skip_network_witness :
    sendStartRequest (Scout.construct true true) ⟨"req-1", true⟩
      = { sent := [], events := [.IgnoredRequestProcessingSkipped "req-1"],
          outcome := .resolved } :=
  (ignored_sends_skip_network (Scout.construct true true) ⟨"req-1", true⟩
      ⟨"span-1", "req-1", none, "op", true⟩ "tag" "value" rfl rfl).1

/-- C8 counterexample: after a completed `shutdown()` (so `isShutdown()`
is `true`), a second `shutdown()` call does not return successfully: it
rejects with `NoAgentPresent`. -/
theorem shutdown_second_call_rejects :
    Scout.isShutdown (Scout.shutdown ⟨.present, true, false, false, true⟩).1 = true
    ∧ (Scout.shutdown (Scout.shutdown ⟨.present, true, false, false, true⟩).1).2.1
        = PromiseOutcome.rejected .noAgentPresent
    ∧ (Scout.shutdown (Scout.shutdown ⟨.present, true, false, false, true⟩).1).2.1
        ≠ PromiseOutcome.resolved := by
  decide

/-- C8 (amended): once `isShutdown()` is `true`, a subsequent `shutdown()`
call still observes `isShutdown() == true`, leaves the agent slot
untouched and emits nothing, but returns a promise rejected with
`NoAgentPresent` rather than a successful one. -/
theorem shutdown_after_shutdown_amended (s : ScoutState)
    (h : Scout.isShutdown s = true) :
    (Scout.shutdown s).2.1 = PromiseOutcome.rejected .noAgentPresent
    ∧ Scout.isShutdown (Scout.shutdown s).1 = true
    ∧ (Scout.shutdown s).1.agent = s.agent
    ∧ (Scout.shutdown s).2.2 = [] := by
  have hagent : s.agent = .null := by
    cases hx : s.agent <;> simp [Scout.isShutdown, hx] at h ⊢
  simp [Scout.shutdown, Scout.isShutdown, hagent]

/-- C8 witness: `shutdown_after_shutdown_amended` applied to the state
left by a completed first shutdown. -/
theorem shutdown_after_shutdown_amended_witness :
    (Scout.shutdown (Scout.shutdown ⟨.present, true, true, true, true⟩).1).2.1
      = PromiseOutcome.rejected .noAgentPresent :=
  (shutdown_after_shutdown_amended
      (Scout.shutdown ⟨.present, true, true, true, true⟩).1 (by decide)).1

/-- C9 counterexample: after a failed `setup()` (here: a rejection with
`ConnectionFailed`), `transaction` does not reject with
`NoAgentPresent` — the user callback runs anyway and the returned
promise resolves. -/
theorem transaction_after_failed_setup_runs_callback :
    Scout.transaction (.rejected .connectionFailed) .resolved = (true, .resolved)
    ∧ (Scout.transaction (.rejected .connectionFailed) .resolved).2
        ≠ PromiseOutcome.rejected .noAgentPresent := by
  decide

/-- C9 (amended): when `setup()` has failed so that no agent is present, a
subsequent `transaction` call catches the setup failure, runs the user
callback in an async request context anyway and resolves; only the
internal sends observe the missing agent, `sendThroughAgent` rejecting
them with `Disconnected` (and sending nothing). -/
theorem transaction_after_failed_setup_amended (e : ScoutError) (o : PromiseOutcome)
    (s : ScoutState) (msg : AgentMsg) (h : Scout.hasAgent s = false) :
    Scout.transaction (.rejected e) o = (true, .resolved)
    ∧ (sendThroughAgent s msg).outcome
        = PromiseOutcome.rejected
            (.disconnected "No agent is present, please run .setup()")
    ∧ (sendThroughAgent s msg).sent = [] := by
  refine ⟨?_, ?_, ?_⟩
  · cases o <;> rfl
  · simp [sendThroughAgent, h]
  · simp [sendThroughAgent, h]

/-- C9 witness: `transaction_after_failed_setup_amended` on a freshly
constructed engine (no agent) and a concrete message. -/
theorem transaction_after_failed_setup_amended_witness :
    Scout.transaction (.rejected .connectionFailed) PromiseOutcome.resolved
      = (true, PromiseOutcome.resolved)
    ∧ (sendThroughAgent (Scout.construct true true) (.V1StartRequest "req-1")).outcome
        = PromiseOutcome.rejected
            (.disconnected "No agent is present, please run .setup()") :=
  ⟨(transaction_after_failed_setup_amended .connectionFailed .resolved
      (Scout.construct true true) (.V1StartRequest "req-1") (by decide)).1,
   (transaction_after_failed_setup_amended .connectionFailed .resolved
      (Scout.construct true true) (.V1StartRequest "req-1") (by decide)).2.1⟩

/-- C10: on a freshly constructed engine `hasAgent()` and `isShutdown()`
are both `false`; installing an agent keeps `isShutdown()` false; only a
completed `shutdown()` (which clears the agent to `null`) makes
`isShutdown()` true — so `isShutdown()` is not the negation of
`hasAgent()` (the fresh engine witnesses the difference). -/
theorem fresh_engine_flags (monitor allowShutdown : Bool) (s : ScoutState) :
    Scout.hasAgent (Scout.construct monitor allowShutdown) = false
    ∧ Scout.isShutdown (Scout.construct monitor allowShutdown) = false
    ∧ Scout.isShutdown (Scout.setupAgent s) = false
    ∧ Scout.isShutdown (Scout.shutdown { s with agent := AgentSlot.present }).1 = true
    ∧ ¬(Scout.isShutdown (Scout.construct monitor allowShutdown)
          = !(Scout.hasAgent (Scout.construct monitor allowShutdown))) := by
  refine ⟨rfl, rfl, rfl, rfl, ?_⟩
  simp [Scout.isShutdown, Scout.hasAgent, Scout.construct]

end ScoutAPM
